import Mathlib

/-!
Verification of the hotlabel-qa validation engine and consensus state machine.

The Python sources are shallowly embedded: response values (Python scalars,
lists, dicts) become the inductive type PyVal; floating point scores become
exact rationals (the scoring code only adds, multiplies, divides and compares,
so the rational model tracks the intended real-number semantics exactly);
Python code paths that raise an unhandled exception become Except.error
results.  Each definition mirrors one function of the repository and is named
after it.  String helpers are re-implemented over character lists so that
concrete instances reduce inside the kernel.
-/

namespace HotlabelQA

/-! ## Python string primitives -/

/-- str.lower() -/
def pyLower (s : String) : String := String.mk (s.data.map Char.toLower)

/-- len(s) in characters -/
def pyLen (s : String) : Nat := s.data.length

/-- str.strip() : drop whitespace from both ends -/
def pyStrip (s : String) : String :=
  String.mk (((s.data.dropWhile Char.isWhitespace).reverse.dropWhile
    Char.isWhitespace).reverse)

/-- str.split() with no separator: split on whitespace runs, dropping empty
pieces.  Structural recursion over the character list, accumulating the
current word in reverse. -/
def pyWordsAux : List Char → List Char → List String
| [], cur => if cur.isEmpty then [] else [String.mk cur.reverse]
| c :: rest, cur =>
    if c.isWhitespace then
      if cur.isEmpty then pyWordsAux rest []
      else String.mk cur.reverse :: pyWordsAux rest []
    else pyWordsAux rest (c :: cur)

def pyWords (s : String) : List String := pyWordsAux s.data []

/-- needle in haystack (Python substring containment) -/
def listInfixCheck : List Char → List Char → Bool
| n, [] => n.isEmpty
| n, c :: rest => List.isPrefixOf n (c :: rest) || listInfixCheck n rest

def pyInStr (needle hay : String) : Bool := listInfixCheck needle.data hay.data

/-- str.isdigit(): nonempty and all characters decimal digits -/
def pyIsDigit (s : String) : Bool := !s.data.isEmpty && s.data.all Char.isDigit

/-- int(s) for an all-digit string -/
def pyParseDigits (cs : List Char) : Nat :=
  cs.foldl (fun n c => 10 * n + (c.toNat - 48)) 0

/-- str.replace(old, new, 1) specialised to removing the first dot -/
def pyRemoveFirstDot : List Char → List Char
| [] => []
| c :: rest => if c = '.' then rest else c :: pyRemoveFirstDot rest

/-! ## Python response values -/

/-- Python JSON-like response values.  vInt models Python int, vFloat Python
float (as an exact rational). -/
inductive PyVal where
| vStr (s : String)
| vInt (n : Int)
| vFloat (q : ℚ)
| vBool (b : Bool)
| vList (items : List PyVal)
| vDict (items : List (String × PyVal))
| vNone

/-- First value bound to a key in a Python dict (dict keys are unique, so the
first match is the only match). -/
def lookupKey (items : List (String × PyVal)) (k : String) : Option PyVal :=
  match items with
  | [] => none
  | (k2, v) :: rest => if k2 = k then some v else lookupKey rest k

/-- Numeric value of a Python int, float or bool
(isinstance(x, (int, float)) is true for all three, bool being a subclass
of int). -/
def numVal : PyVal → Option ℚ
| .vInt n => some (n : ℚ)
| .vFloat q => some q
| .vBool b => some (if b then 1 else 0)
| _ => none

/-- Python == on response values: ints, floats and bools compare by numeric
value, lists elementwise, dicts by key set and per-key values. -/
def pyEq (a b : PyVal) : Bool :=
  match a, b with
  | .vStr x, .vStr y => x = y
  | .vInt _, _ | .vFloat _, _ | .vBool _, _ =>
      match numVal a, numVal b with
      | some x, some y => x = y
      | _, _ => false
  | .vList xs, .vList ys =>
      xs.length = ys.length &&
      (xs.zip ys).attach.all (fun p => pyEq p.1.1 p.1.2)
  | .vDict xs, .vDict ys =>
      xs.length = ys.length &&
      xs.attach.all (fun kv =>
        match lookupKey ys kv.1.1 with
        | some w => pyEq kv.1.2 w
        | none => false)
  | .vNone, .vNone => true
  | _, _ => false
termination_by sizeOf a
decreasing_by
  · have h1 : sizeOf p.1.1 < sizeOf xs :=
      List.sizeOf_lt_of_mem (List.of_mem_zip p.2).1
    simp only [PyVal.vList.sizeOf_spec]
    omega
  · have h1 : sizeOf kv.1 < sizeOf xs := List.sizeOf_lt_of_mem kv.2
    have h2 : sizeOf kv.1.2 < sizeOf kv.1 := by
      obtain ⟨k, v⟩ := kv.1
      simp only [Prod.mk.sizeOf_spec]
      omega
    simp only [PyVal.vDict.sizeOf_spec]
    omega

def PyVal.isNone : PyVal → Bool
| .vNone => true
| _ => false

/-! ## Enumerations (app/models/validation.py, app/models/consensus.py) -/

inductive ValidationMethod where
| golden_set
| consensus
| statistical
| bot_detection
| threshold
| manual
deriving DecidableEq

inductive ValidationStatus where
| pending
| validated
| rejected
| needs_review
deriving DecidableEq

inductive ConsensusStatus where
| pending
| in_progress
| completed
| failed
deriving DecidableEq

/-- The quality-threshold configuration (app/core/config.py defaults). -/
structure QASettings where
  high_confidence_threshold : ℚ := 0.85
  medium_confidence_threshold : ℚ := 0.60
  minimum_consensus_validators : Nat := 3
  consensus_required_agreement : ℚ := 0.75

def defaultSettings : QASettings := {}

/-- The (quality, confidence, issues, feedback) tuple every validator
returns.  Issue dictionaries are abstracted to strings: no branch of the
orchestrator inspects their content. -/
structure StrategyResult where
  quality : ℚ
  confidence : ℚ
  issues : List String
  feedback : Option String
deriving DecidableEq

/-- Python "a or b" on optional feedback strings: None and "" are falsy. -/
def pyOrFeedback (a b : Option String) : Option String :=
  match a with
  | some s => if s = "" then b else some s
  | none => b

/-! ## ValidationService (app/services/validation_service.py) -/

/-- ValidationService._determine_validation_method: an explicitly requested
method wins; otherwise GOLDEN_SET when a golden example exists for the task,
else THRESHOLD. -/
def determine_validation_method (requested : Option ValidationMethod)
    (goldenExists : Bool) : ValidationMethod :=
  match requested with
  | some m => m
  | none => if goldenExists then .golden_set else .threshold

/-- ValidationService._perform_validation: dispatch on the method.  The four
strategy outputs are passed in as values (in the source they are awaited
validator calls); goldenExists models golden_set_repository.get_by_task_id
returning a row.  The weighted combination only runs in the final else
branch, i.e. when the method is neither GOLDEN_SET, BOT_DETECTION,
STATISTICAL nor THRESHOLD. -/
def perform_validation (m : ValidationMethod)
    (golden thr bot stat : StrategyResult) (goldenExists : Bool) :
    StrategyResult :=
  match m with
  | .golden_set => golden
  | .bot_detection => bot
  | .statistical => stat
  | .threshold => thr
  | _ =>
    if goldenExists then
      { quality := golden.quality * 0.5 + thr.quality * 0.2 +
          bot.quality * 0.2 + stat.quality * 0.1,
        confidence := golden.confidence * 0.5 + thr.confidence * 0.2 +
          bot.confidence * 0.2 + stat.confidence * 0.1,
        issues := golden.issues ++ thr.issues ++ bot.issues ++ stat.issues,
        feedback := pyOrFeedback golden.feedback (pyOrFeedback bot.feedback
          (pyOrFeedback thr.feedback stat.feedback)) }
    else
      { quality := thr.quality * 0.4 + bot.quality * 0.3 + stat.quality * 0.3,
        confidence := thr.confidence * 0.4 + bot.confidence * 0.3 +
          stat.confidence * 0.3,
        issues := thr.issues ++ bot.issues ++ stat.issues,
        feedback := pyOrFeedback bot.feedback
          (pyOrFeedback thr.feedback stat.feedback) }

/-- ValidationService._determine_status -/
def determine_status (st : QASettings) (quality_score confidence : ℚ) :
    ValidationStatus :=
  if confidence ≥ st.high_confidence_threshold then
    if quality_score ≥ 0.7 then .validated else .rejected
  else if confidence ≥ st.medium_confidence_threshold then .needs_review
  else .needs_review

/-! ## Consensus calculation (app/services/consensus.py) -/

/-- Python str(v) (asRepr false) and repr(v) (asRepr true, used for elements
inside containers).  Rendering of floats differs from CPython's shortest
round-trip decimal - no claim below depends on the string form of a float. -/
def pyStrAux (asRepr : Bool) (v : PyVal) : String :=
  match v with
  | .vStr s => if asRepr then "\x27" ++ s ++ "\x27" else s
  | .vInt n => toString n
  | .vFloat q => toString q
  | .vBool b => if b then "True" else "False"
  | .vNone => "None"
  | .vList items =>
      "[" ++ String.intercalate ", "
        (items.attach.map (fun p => pyStrAux true p.1)) ++ "]"
  | .vDict items =>
      "\x7b" ++ String.intercalate ", "
        (items.attach.map (fun p =>
          "\x27" ++ p.1.1 ++ "\x27: " ++ pyStrAux true p.1.2)) ++ "\x7d"
termination_by sizeOf v
decreasing_by
  · have h1 : sizeOf p.1 < sizeOf items := List.sizeOf_lt_of_mem p.2
    simp only [PyVal.vList.sizeOf_spec]
    omega
  · have h1 : sizeOf p.1 < sizeOf items := List.sizeOf_lt_of_mem p.2
    have h2 : sizeOf p.1.2 < sizeOf p.1 := by
      obtain ⟨k, v⟩ := p.1
      simp only [Prod.mk.sizeOf_spec]
      omega
    simp only [PyVal.vDict.sizeOf_spec]
    omega

def pyStr (v : PyVal) : String := pyStrAux false v

/-- Exact value of float(s) for a digits-dot-digits literal (CPython rounds
to binary double; the consensus code only stores the value, never branches
on it). -/
def pyFloatOfDecimal (s : String) : ℚ :=
  let intPart := s.data.takeWhile (fun c => c ≠ '.')
  let fracPart := (s.data.dropWhile (fun c => c ≠ '.')).drop 1
  (pyParseDigits (intPart ++ fracPart) : ℚ) / (10 : ℚ) ^ fracPart.length

/-- The try-to-convert-back-to-original-type block shared by the dict, list
and simple consensus calculators. -/
def pyParseBack (s : String) : PyVal :=
  if pyLower s = "true" then .vBool true
  else if pyLower s = "false" then .vBool false
  else if pyIsDigit s then .vInt (pyParseDigits s.data)
  else if pyIsDigit (String.mk (pyRemoveFirstDot s.data)) then
    .vFloat (pyFloatOfDecimal s)
  else .vStr s

/-- Distinct elements in first-occurrence order: the iteration order of a
CPython Counter built from the list. -/
def firstDedup (l : List String) : List String :=
  l.foldl (fun acc x => if x ∈ acc then acc else acc ++ [x]) []

def PyVal.getStr : PyVal → Option String
| .vStr s => some s
| _ => none

def PyVal.isDict : PyVal → Bool
| .vDict _ => true
| _ => false

/-- r.strip().lower() applied to each text response -/
def normalize_response (s : String) : String := pyLower (pyStrip s)

/-- _calculate_text_consensus: non-string members are dropped, the rest are
normalised, and the most frequent normalised response (first encountered on
ties, as Counter.most_common reports it) wins with agreement
count / len(normalized). -/
def calculate_text_consensus (responses : List PyVal) : PyVal × ℚ :=
  let normalized := (responses.filterMap PyVal.getStr).map normalize_response
  match List.argmax (fun x => normalized.count x) normalized with
  | none => (.vStr "", 0)
  | some m => (.vStr m, (normalized.count m : ℚ) / normalized.length)

/-- _calculate_dict_consensus: key-by-key majority vote over str()-converted
values; a non-dict member makes response.keys() raise AttributeError.  The
key iteration order (a Python set) only permutes the list of per-key
agreements, whose mean is order-independent. -/
def calculate_dict_consensus (responses : List PyVal) :
    Except String (PyVal × ℚ) :=
  if responses.isEmpty then .ok (.vDict [], 0)
  else if ¬ responses.all PyVal.isDict then
    .error "AttributeError: keys"
  else
    let all_keys := firstDedup (responses.flatMap (fun r =>
      match r with
      | .vDict its => its.map Prod.fst
      | _ => []))
    let votes := all_keys.filterMap (fun key =>
      let key_values := responses.filterMap (fun r =>
        match r with
        | .vDict its => (lookupKey its key).map (pyStrAux false)
        | _ => none)
      match List.argmax (fun x => key_values.count x) key_values with
      | none => none
      | some mc =>
          some (key, mc, (key_values.count mc : ℚ) / responses.length))
    let agreements := votes.map (fun t => t.2.2)
    let result := votes.filterMap (fun t =>
      if t.2.2 > 0.5 then some (t.1, pyParseBack t.2.1) else none)
    .ok (.vDict result,
      if agreements.isEmpty then 0 else agreements.sum / agreements.length)

/-- _calculate_list_consensus: flatten the str()-converted items of all list
members, keep the distinct items appearing in at least half the responses,
and report |kept| / |distinct| as agreement. -/
def calculate_list_consensus (responses : List PyVal) : PyVal × ℚ :=
  if responses.isEmpty then (.vList [], 0)
  else
    let all_items := responses.flatMap (fun r =>
      match r with
      | .vList its => its.map (pyStrAux false)
      | _ => [])
    if all_items.isEmpty then (.vList [], 0)
    else
      let distinct := firstDedup all_items
      let consensus_items := distinct.filterMap (fun it =>
        if ((all_items.count it : ℚ)) ≥ (responses.length : ℚ) / 2 then
          some (pyParseBack it)
        else none)
      (.vList consensus_items, (consensus_items.length : ℚ) / distinct.length)

/-- _calculate_simple_consensus: majority vote over str()-converted values. -/
def calculate_simple_consensus (responses : List PyVal) : PyVal × ℚ :=
  let strs := responses.map (pyStrAux false)
  match List.argmax (fun x => strs.count x) strs with
  | none => (.vNone, 0)
  | some mc => (pyParseBack mc, (strs.count mc : ℚ) / responses.length)

/-- calculate_consensus: drop members whose response is None, then dispatch
on the type of the first remaining response. -/
def calculate_consensus (validations : List PyVal) :
    Except String (PyVal × ℚ) :=
  if validations.isEmpty then .ok (.vDict [], 0)
  else
    let responses := validations.filter (fun v => ! v.isNone)
    match responses with
    | [] => .ok (.vDict [], 0)
    | sample :: _ =>
      match sample with
      | .vStr _ => .ok (calculate_text_consensus responses)
      | .vDict _ => calculate_dict_consensus responses
      | .vList _ => .ok (calculate_list_consensus responses)
      | _ => .ok (calculate_simple_consensus responses)

/-! ## ConsensusRepository (app/db/repositories/consensus_repository.py) -/

/-- One consensus group row; members are the responses of the validations
whose consensus_group_id points at the group, in insertion order. -/
structure GroupState where
  status : ConsensusStatus
  required_validations : Nat
  agreement_threshold : ℚ
  consensus_result : Option PyVal := none
  agreement_level : Option ℚ := none
  members : List PyVal

/-- ConsensusRepository.add_validation: link the validation to the group
(append its response to the members) and promote a PENDING group to
IN_PROGRESS.  No other state is inspected - in particular the group's
being COMPLETED or FAILED does not stop the linking. -/
def add_validation (g : GroupState) (response : PyVal) : GroupState :=
  { g with members := g.members ++ [response],
           status := if g.status = .pending then .in_progress else g.status }

def nameErrorMsg : String := "NameError: import_module is not defined"

/-- ConsensusRepository.check_and_update_consensus.  When the agreement
reaches the threshold the source assigns status/result/agreement on the ORM
object and then evaluates import_module(...), a name it never imports: the
NameError propagates before db.commit(), the session is rolled back, and no
state change is persisted - modelled as an error carrying no new state.
Below the threshold the function commits: FAILED once the member count
reaches twice the required validations, no change otherwise.  Nothing is
recomputed while the member count is below required_validations, and the
current status (terminal or not) is never consulted. -/
def check_and_update_consensus (g : GroupState) : Except String GroupState :=
  if g.members.length ≥ g.required_validations then
    match calculate_consensus g.members with
    | .error e => .error e
    | .ok (_, agreement_level) =>
      if agreement_level ≥ g.agreement_threshold then
        .error nameErrorMsg
      else if g.members.length ≥ g.required_validations * 2 then
        .ok { g with status := .failed }
      else .ok g
  else .ok g

/-- ValidationService._handle_consensus_validation.  When no group exists for
the task, the service builds a ConsensusCreate - a pydantic model with
fields task_id, status, agreement_score, validator_count that silently
ignores the required_validations and agreement_threshold keyword arguments -
and ConsensusRepository.create then reads consensus_data.required_validations,
which raises AttributeError before any group is created. -/
def handle_consensus_validation (existing : Option GroupState)
    (response : PyVal) : Except String GroupState :=
  match existing with
  | none =>
      .error "AttributeError: ConsensusCreate has no attribute required_validations"
  | some g => check_and_update_consensus (add_validation g response)

/-- ValidationService.validate_submission, from the point where the strategy
outputs are known: fuse/dispatch, decide the status, and on NEEDS_REVIEW run
the consensus handling, whose unhandled exceptions propagate to the caller. -/
def validate_submission (requested : Option ValidationMethod)
    (goldenExists : Bool) (golden thr bot stat : StrategyResult)
    (st : QASettings) (existing : Option GroupState) (response : PyVal) :
    Except String (StrategyResult × ValidationStatus) :=
  let m := determine_validation_method requested goldenExists
  let r := perform_validation m golden thr bot stat goldenExists
  let status := determine_status st r.quality r.confidence
  if status = .needs_review then
    match handle_consensus_validation existing response with
    | .error e => .error e
    | .ok _ => .ok (r, status)
  else .ok (r, status)

/-- Matching unordered pairs, counted as in the nested loop of
ConsensusService.check_and_update_consensus (app/services/consensus.py). -/
def count_matching_pairs : List PyVal → Nat
| [] => 0
| x :: rest => (rest.filter (fun y => pyEq x y)).length + count_matching_pairs rest

/-- The pairwise exact-match agreement: matching pairs over total unordered
pairs, 0 below two members.  This is the agreement the spec prescribes for
the consensus group state machine; in the source it is computed only by
ConsensusService.check_and_update_consensus over a separate Consensus model,
not on the validation-to-group path. -/
def pairwise_agreement (responses : List PyVal) : ℚ :=
  if responses.length < 2 then 0
  else (count_matching_pairs responses : ℚ) /
    ((responses.length : ℚ) * ((responses.length : ℚ) - 1) / 2)

/-! ## GoldenSetValidator (app/services/validators/golden_set_validator.py) -/

/-- Deduplication with Python == (the effect of building a set, == being an
equivalence on the simple values a hashable set can hold). -/
def pyDedup (l : List PyVal) : List PyVal :=
  l.foldl (fun acc x => if acc.any (pyEq x) then acc else acc ++ [x]) []

/-- isinstance(x, (str, int, float, bool)) -/
def PyVal.isSimple : PyVal → Bool
| .vStr _ | .vInt _ | .vFloat _ | .vBool _ => true
| _ => false

def stop_words : List String :=
  ["the", "and", "are", "for", "was", "not", "with", "this", "that"]

/-- GoldenSetValidator._fuzzy_text_compare: coverage of the expected text's
keywords (words longer than 3 characters, not stop words) found as
substrings of the lowercased user text. -/
def fuzzy_text_compare (user_text expected_text : String) : ℚ :=
  let expected_keywords := (pyWords (pyLower expected_text)).filter
    (fun w => pyLen w > 3 && !stop_words.contains w)
  let keywords_found := (expected_keywords.filter
    (fun kw => pyInStr kw (pyLower user_text))).length
  if expected_keywords.isEmpty then 1
  else (keywords_found : ℚ) / expected_keywords.length

/-- GoldenSetValidator._compare_simple_response.  The branches follow the
source's isinstance chain: the string branch, then the
isinstance(expected, (int, float)) branch - which captures Python booleans,
bool being a subclass of int, so the later elif isinstance(expected, bool)
branch is dead code - and the final unsupported-type fallback, also reached
when expected == 0 and abs(user) exceeds the allowed variation (that inner
if has no else and falls through the whole chain).  CPython raises
ZeroDivisionError in the partial-credit branch when allowed_variation is 0;
rational division by zero makes the expression max 0 (1 - r/0) = 1 instead,
so theorems touching that branch assume 0 < allowed_variation. -/
def compare_simple_response (user expected : PyVal) (allowed_variation : ℚ) :
    ℚ :=
  match expected with
  | .vStr es =>
      match user with
      | .vStr us =>
          if pyLen es > 20 then fuzzy_text_compare us es
          else if pyLower us = pyLower es then 1
          else 0
      | _ => 0
  | .vInt _ | .vFloat _ | .vBool _ =>
      match numVal expected, numVal user with
      | some e, some u =>
          if e = 0 then (if |u| ≤ allowed_variation then 1 else 0)
          else
            let relative_error := |u - e| / |e|
            if relative_error ≤ allowed_variation then 1
            else max 0 (1 - relative_error / (allowed_variation * 3))
      | _, _ => 0
  | _ => 0

/-- GoldenSetValidator._compare_simple_lists: order-independent F1-style
score over the two value sets (Python set semantics via pyEq).  The
except-fallback of the source is unreachable here: this is only called on
lists of simple, hashable items. -/
def compare_simple_lists (user expected : List PyVal) : ℚ :=
  let expected_set := pyDedup expected
  let user_set := pyDedup user
  let common := (expected_set.filter
    (fun x => user_set.any (pyEq x))).length
  let expected_coverage : ℚ :=
    if expected_set.isEmpty then 1 else (common : ℚ) / expected_set.length
  let precision : ℚ :=
    if user_set.isEmpty then 1 else (common : ℚ) / user_set.length
  if expected_coverage + precision > 0 then
    2 * (expected_coverage * precision) / (expected_coverage + precision)
  else 0

/-- GoldenSetValidator._compare_responses with its two recursive branches
_compare_dict_response and _compare_list_response inlined as the
corresponding match arms (the score component only; the issue lists carried
alongside in the source never influence any score).  In the dict branch the
loop sums the recursive scores of the expected keys present in the user
response, and BOTH key_coverage and value_quality are divided by the total
number of expected keys. -/
def compare_responses (user expected : PyVal) (allowed_variation : ℚ) : ℚ :=
  match expected with
  | .vDict items =>
      match user with
      | .vDict uitems =>
          let total_keys := items.length
          let present_scores := items.attach.filterMap (fun p =>
            match lookupKey uitems p.1.1 with
            | some uv => some (compare_responses uv p.1.2 allowed_variation)
            | none => none)
          let key_coverage : ℚ :=
            if total_keys > 0 then (present_scores.length : ℚ) / total_keys
            else 0
          let value_quality : ℚ :=
            if total_keys > 0 then present_scores.sum / total_keys else 0
          0.4 * key_coverage + 0.6 * value_quality
      | _ => 0
  | .vList items =>
      match user with
      | .vList uitems =>
          if items.isEmpty then (if uitems.isEmpty then 1 else 0)
          else if items.all PyVal.isSimple then compare_simple_lists uitems items
          else
            (((uitems.zip items).attach.map (fun p =>
              compare_responses p.1.1 p.1.2 allowed_variation)).sum) /
              (items.length : ℚ)
      | _ => 0
  | .vNone => 0
  | _ => compare_simple_response user expected allowed_variation
termination_by sizeOf expected
decreasing_by
  · have h1 : sizeOf p.1 < sizeOf items := List.sizeOf_lt_of_mem p.2
    have h2 : sizeOf p.1.2 < sizeOf p.1 := by
      obtain ⟨k, w⟩ := p.1
      simp only [Prod.mk.sizeOf_spec]
      omega
    simp only [PyVal.vDict.sizeOf_spec]
    omega
  · have h1 : sizeOf p.1.2 < sizeOf items :=
      List.sizeOf_lt_of_mem (List.of_mem_zip p.2).2
    simp only [PyVal.vList.sizeOf_spec]
    omega

/-- The list of recursive similarity scores of the expected keys that are
present in the user response, in expected-key order: the values summed by
the loop of _compare_dict_response (written with attach exactly as in the
dict arm of compare_responses). -/
def dict_present_scores (uitems items : List (String × PyVal)) (v : ℚ) :
    List ℚ :=
  items.attach.filterMap (fun p =>
    match lookupKey uitems p.1.1 with
    | some uv => some (compare_responses uv p.1.2 v)
    | none => none)

/-- Modelled from the spec (section 4.1, structured record): score =
0.4 * key_coverage + 0.6 * mean of the recursive similarities over exactly
those expected keys present in the candidate, where missing keys lower only
the coverage term and are excluded - not zero-filled - from the value term.
Stated from the spec's words for comparison with compare_responses. -/
def spec_dict_similarity (user expected : PyVal) (v : ℚ) : ℚ :=
  match expected, user with
  | .vDict items, .vDict uitems =>
      let present := dict_present_scores uitems items v
      let key_coverage : ℚ :=
        if items.length > 0 then (present.length : ℚ) / items.length else 0
      0.4 * key_coverage +
        0.6 * (if present.length > 0 then present.sum / present.length else 0)
  | _, _ => 0

/-! ## BotDetector (app/services/validators/bot_detector.py) -/

/-- BotDetector._responses_equal: dicts by ==, strings case-insensitively
after strip, everything else by plain ==. -/
def responses_equal (response1 response2 : PyVal) : Bool :=
  match response1, response2 with
  | .vDict _, .vDict _ => pyEq response1 response2
  | .vStr a, .vStr b => pyStrip (pyLower a) = pyStrip (pyLower b)
  | _, _ => pyEq response1 response2

/-- BotDetector._detect_time_pattern.  The source compares the coefficient
of variation stdev/mean (sample standard deviation, n-1 divisor) against
0.1 and 0.2; with mean > 0 these comparisons are equivalent to comparing
the variance against 0.01 and 0.04 times mean squared, which keeps the
computation rational (stdev itself is irrational).  mean <= 0 makes the
source's cv infinite, taking the final 0.0 branch. -/
def detect_time_pattern (times : List Int) : ℚ :=
  if times.length < 3 then 0
  else
    let n : ℚ := times.length
    let mean := (times.map (fun t => (t : ℚ))).sum / n
    let variance := ((times.map (fun t => ((t : ℚ) - mean) ^ 2)).sum) / (n - 1)
    if variance = 0 then 1
    else if 0 < mean ∧ variance < (0.1 : ℚ) ^ 2 * mean ^ 2 then 0.9
    else if 0 < mean ∧ variance < (0.2 : ℚ) ^ 2 * mean ^ 2 then 0.7
    else 0

/-- BotDetector._check_pattern_repetition.  recent is what the repository
returned for get_recent_by_session(session_id, limit=5): the session's most
recent validations (at most 5), each a response together with its optional
time_spent_ms.  Note the inner time-pattern score is only propagated when
it exceeds 0.8; otherwise the function falls through to 0.0. -/
def check_pattern_repetition (recent : List (PyVal × Option Int))
    (current_response : PyVal) : ℚ :=
  if recent.length < 2 then 0
  else if (recent.map Prod.fst).any
      (fun prev => responses_equal current_response prev) then 1
  else
    let response_times := recent.filterMap Prod.snd
    if !response_times.isEmpty && response_times.length ≥ 3 then
      let time_pattern_score := detect_time_pattern response_times
      if time_pattern_score > 0.8 then time_pattern_score else 0
    else 0

/-! ## ThresholdValidator (app/services/validators/threshold_validator.py) -/

def threshold_min_time (task_type : String) : Int :=
  if task_type = "vqa" then 1500
  else if task_type = "text_classification" then 1000
  else if task_type = "multiple_choice" then 800
  else if task_type = "open_text" then 2000
  else 1000

/-- ThresholdValidator._check_minimum_time (quality factor only). -/
def check_minimum_time (time_spent_ms : Int) (task_type : String) : ℚ :=
  let min_time := threshold_min_time task_type
  if time_spent_ms < min_time then
    if time_spent_ms ≤ 0 then 0.3
    else min 0.9 (0.5 + 0.4 * (time_spent_ms : ℚ) / (min_time : ℚ))
  else 1

/-- Python truthiness of a response value -/
def pyTruthy : PyVal → Bool
| .vStr s => s ≠ ""
| .vInt n => n ≠ 0
| .vFloat q => q ≠ 0
| .vBool b => b
| .vList l => !l.isEmpty
| .vDict l => !l.isEmpty
| .vNone => false

/-- isinstance(x, (str, int)) - booleans included, floats not. -/
def PyVal.isStrOrInt : PyVal → Bool
| .vStr _ | .vInt _ | .vBool _ => true
| _ => false

/-- ThresholdValidator._check_response_format (quality factor only). -/
def check_response_format (response : PyVal) (task_type : String) : ℚ :=
  if task_type = "multiple_choice" then
    if !(response.isStrOrInt && pyTruthy response) then 0.5 else 1
  else if task_type = "open_text" then
    match response with
    | .vStr s => if pyLen (pyStrip s) < 5 then 0.7 else 1
    | _ => 0.5
  else if task_type = "vqa" then
    match response with
    | .vStr s => if s = "" then 0.5 else 1
    | _ => 0.5
  else 1

/-- Maximal runs of one repeated character with length at least 4, the
matches of the regex (.)\1 followed by at least three repeats (findall is
non-overlapping and greedy, so each maximal run is one match; the dot does
not match a newline). -/
def countLongRuns (cs : List Char) (cur : Option (Char × Nat)) : Nat :=
  match cs, cur with
  | [], some (p, k) => if k ≥ 4 && p ≠ Char.ofNat 10 then 1 else 0
  | [], none => 0
  | c :: rest, none => countLongRuns rest (some (c, 1))
  | c :: rest, some (p, k) =>
      if c = p then countLongRuns rest (some (p, k + 1))
      else (if k ≥ 4 && p ≠ Char.ofNat 10 then 1 else 0) +
        countLongRuns rest (some (c, 1))

/-- ThresholdValidator._check_repetition -/
def check_repetition (text : String) : ℚ :=
  if pyLen text < 5 then 1
  else if countLongRuns text.data none > 2 then 0.6
  else
    let words := pyWords (pyLower text)
    if words.length ≥ 6 then
      let unique_ratio : ℚ := ((firstDedup words).length : ℚ) / words.length
      if unique_ratio < 0.3 then 0.5
      else if unique_ratio < 0.5 then 0.7
      else 1
    else 1

/-- Python word characters (\w): letters, digits, underscore (ASCII scope). -/
def isWordChar (c : Char) : Bool := c.isAlpha || c.isDigit || c = '_'

/-- The matches of the word-regex of _check_gibberish over the lowered text:
maximal runs of lowercase letters of length 1..20 whose neighbours (when
present) are not word characters - a digit or underscore next to the run,
or a run longer than 20 letters, admits no word-boundary match. -/
def gibberishWords (prev : Option Char) (cs : List Char) :
    List (List Char) :=
  match cs with
  | [] => []
  | c :: rest =>
    if h : c.isLower then
      let run := List.takeWhile Char.isLower (c :: rest)
      let rest2 := List.dropWhile Char.isLower (c :: rest)
      let prevOk := match prev with
        | some d => !isWordChar d
        | none => true
      let nextOk := match rest2.head? with
        | some d => !isWordChar d
        | none => true
      (if run.length ≤ 20 && prevOk && nextOk then [run] else []) ++
        gibberishWords run.getLast? rest2
    else gibberishWords (some c) rest
termination_by cs.length
decreasing_by
  · have h1 : List.dropWhile Char.isLower (c :: rest) =
        List.dropWhile Char.isLower rest := by
      simp [List.dropWhile, h]
    have h2 : ∀ l : List Char, (List.dropWhile Char.isLower l).length ≤ l.length := by
      intro l
      induction l with
      | nil => simp [List.dropWhile]
      | cons d ds ih =>
        simp only [List.dropWhile, List.length_cons]
        split
        · omega
        · simp
    have h3 := h2 rest
    simp only [h1, List.length_cons]
    omega
  · simp

/-- ThresholdValidator._check_gibberish -/
def check_gibberish (text : String) : ℚ :=
  let t := pyStrip (pyLower text)
  let words := gibberishWords none t.data
  if words.isEmpty then 0.5
  else
    let avg_length : ℚ := (((words.map List.length).sum : ℕ) : ℚ) / words.length
    if avg_length < 2.5 ∨ avg_length > 10 then 0.6
    else 1

/-- ThresholdValidator._check_response_content (quality factor only). -/
def check_response_content (response : PyVal) (task_type : String) : ℚ :=
  match response with
  | .vStr s =>
      let repetition_score := check_repetition s
      if repetition_score < 0.7 then repetition_score
      else if task_type = "open_text" && pyLen s > 10 then
        let gibberish_score := check_gibberish s
        if gibberish_score < 0.7 then gibberish_score else 1
      else 1
  | _ => 1

/-- ThresholdValidator.validate: quality starts at 1.0 and is multiplied by
the three factor scores; confidence is fixed at 0.8. -/
def threshold_validator_validate (response : PyVal) (time_spent_ms : Int)
    (task_type : String) : ℚ × ℚ :=
  (1 * check_minimum_time time_spent_ms task_type
     * check_response_format response task_type
     * check_response_content response task_type,
   0.8)

/-! ## Claim theorems -/

/-- C3: the validation status is a pure function of (quality, confidence)
against the configured thresholds: with confidence at or above HIGH the
status is validated exactly when quality is at least 0.7 (the boundary is
inclusive on the validated side) and rejected below 0.7; with confidence
below HIGH - whether in the medium band or below it - the status is
needs_review. -/
theorem C3_determine_status_table (st : QASettings) (q c : ℚ) :
    (st.high_confidence_threshold ≤ c → 0.7 ≤ q →
      determine_status st q c = .validated) ∧
    (st.high_confidence_threshold ≤ c → q < 0.7 →
      determine_status st q c = .rejected) ∧
    (c < st.high_confidence_threshold →
      determine_status st q c = .needs_review) := by
  refine ⟨fun hc hq => ?_, fun hc hq => ?_, fun hc => ?_⟩
  · simp [determine_status, ge_iff_le, hc, hq]
  · simp [determine_status, ge_iff_le, hc, not_le.mpr hq]
  · simp only [determine_status, ge_iff_le, if_neg (not_le.mpr hc)]
    split <;> rfl

/-- Witness for C3 at the default thresholds (HIGH = 0.85): quality 0.7 at
confidence 0.9 validates, quality 0.69 rejects, and confidence 0.8 forces
needs_review. -/
theorem C3_determine_status_table_witness :
    determine_status defaultSettings 0.7 0.9 = .validated ∧
    determine_status defaultSettings 0.69 0.9 = .rejected ∧
    determine_status defaultSettings 1 0.8 = .needs_review :=
  ⟨(C3_determine_status_table defaultSettings 0.7 0.9).1
      (by norm_num [defaultSettings]) (by norm_num),
   (C3_determine_status_table defaultSettings 0.69 0.9).2.1
      (by norm_num [defaultSettings]) (by norm_num),
   (C3_determine_status_table defaultSettings 1 0.8).2.2
      (by norm_num [defaultSettings])⟩

/-- C1 counterexample: a submission with no explicitly requested method and
a golden example present is routed to the GOLDEN_SET method and gets the
golden strategy's quality alone (here 1), not the 0.5/0.2/0.2/0.1 weighted
fusion of the four strategies (here 0.5). -/
theorem C1_counterexample :
    (perform_validation (determine_validation_method none true)
      ⟨1, 1, [], none⟩ ⟨0, 0, [], none⟩ ⟨0, 0, [], none⟩ ⟨0, 0, [], none⟩
      true).quality = 1 ∧
    (1 : ℚ) * 0.5 + 0 * 0.2 + 0 * 0.2 + 0 * 0.1 = 0.5 ∧
    (1 : ℚ) ≠ 0.5 := by
  refine ⟨rfl, by norm_num, by norm_num⟩

/-- C1 amended: without an explicitly requested method the engine uses the
single GOLDEN_SET strategy when a golden example exists and the single
THRESHOLD strategy otherwise, returning that strategy's result unchanged;
the weighted fusion (golden 0.5 / threshold 0.2 / bot 0.2 / statistical 0.1
with a golden example, threshold 0.4 / bot 0.3 / statistical 0.3 without,
with issues concatenated and the first non-empty feedback in priority order)
is computed only when the requested method is CONSENSUS or MANUAL, the two
methods without a dedicated validator. -/
theorem C1_amended_dispatch (golden thr bot stat : StrategyResult)
    (goldenExists : Bool) (m : ValidationMethod) :
    (perform_validation (determine_validation_method none goldenExists)
        golden thr bot stat goldenExists =
      (if goldenExists then golden else thr)) ∧
    ((m = .consensus ∨ m = .manual) →
      perform_validation m golden thr bot stat goldenExists =
        if goldenExists then
          ⟨golden.quality * 0.5 + thr.quality * 0.2 + bot.quality * 0.2 +
              stat.quality * 0.1,
            golden.confidence * 0.5 + thr.confidence * 0.2 +
              bot.confidence * 0.2 + stat.confidence * 0.1,
            golden.issues ++ thr.issues ++ bot.issues ++ stat.issues,
            pyOrFeedback golden.feedback (pyOrFeedback bot.feedback
              (pyOrFeedback thr.feedback stat.feedback))⟩
        else
          ⟨thr.quality * 0.4 + bot.quality * 0.3 + stat.quality * 0.3,
            thr.confidence * 0.4 + bot.confidence * 0.3 +
              stat.confidence * 0.3,
            thr.issues ++ bot.issues ++ stat.issues,
            pyOrFeedback bot.feedback
              (pyOrFeedback thr.feedback stat.feedback)⟩) := by
  constructor
  · cases goldenExists <;> rfl
  · rintro (rfl | rfl) <;> cases goldenExists <;> rfl

/-- Witness for C1 amended at concrete strategy outputs: with a golden
example and no requested method the golden result is returned unchanged,
and the MANUAL method triggers the four-way fusion. -/
theorem C1_amended_dispatch_witness :
    (perform_validation
        (determine_validation_method none true)
        ⟨1, 1, [], none⟩ ⟨1/2, 4/5, [], none⟩ ⟨1, 1/2, [], none⟩
        ⟨1/2, 3/10, [], none⟩ true = ⟨1, 1, [], none⟩) ∧
    perform_validation .manual ⟨1, 1, [], none⟩ ⟨1/2, 4/5, [], none⟩
        ⟨1, 1/2, [], none⟩ ⟨1/2, 3/10, [], none⟩ true =
      ⟨(1 : ℚ) * 0.5 + 1/2 * 0.2 + 1 * 0.2 + 1/2 * 0.1,
        (1 : ℚ) * 0.5 + 4/5 * 0.2 + 1/2 * 0.2 + 3/10 * 0.1,
        ([] : List String) ++ [] ++ [] ++ [],
        pyOrFeedback none (pyOrFeedback none (pyOrFeedback none none))⟩ := by
  constructor
  · exact (C1_amended_dispatch ⟨1, 1, [], none⟩ ⟨1/2, 4/5, [], none⟩
      ⟨1, 1/2, [], none⟩ ⟨1/2, 3/10, [], none⟩ true .manual).1
  · exact (C1_amended_dispatch ⟨1, 1, [], none⟩ ⟨1/2, 4/5, [], none⟩
      ⟨1, 1/2, [], none⟩ ⟨1/2, 3/10, [], none⟩ true .manual).2 (Or.inr rfl)

/-- C5: the validate path is NOT failure-free.  A submission whose scores
land in the needs_review band (threshold method: confidence 0.8 is below
the default HIGH threshold 0.85) for a task with no existing consensus
group makes _handle_consensus_validation build a ConsensusCreate without
the required_validations field, and ConsensusRepository.create raises
AttributeError at request time. -/
theorem C5_needs_review_path_raises :
    validate_submission (some .threshold) false ⟨0, 0, [], none⟩
      ⟨1, 0.8, [], none⟩ ⟨0, 0, [], none⟩ ⟨0, 0, [], none⟩
      defaultSettings none (.vStr "a") =
    .error "AttributeError: ConsensusCreate has no attribute required_validations" := by
  norm_num [validate_submission, determine_validation_method,
    perform_validation, determine_status, handle_consensus_validation,
    defaultSettings]

theorem threshold_min_time_pos (tt : String) : 0 < threshold_min_time tt := by
  unfold threshold_min_time
  split_ifs <;> norm_num

theorem check_minimum_time_bounds (t : Int) (tt : String) :
    3/10 ≤ check_minimum_time t tt ∧ check_minimum_time t tt ≤ 1 := by
  have hm := threshold_min_time_pos tt
  have hmq : (0 : ℚ) < (threshold_min_time tt : ℚ) := by exact_mod_cast hm
  by_cases h1 : t < threshold_min_time tt
  · by_cases h2 : t ≤ 0
    · simp only [check_minimum_time, h1, h2, if_true, if_pos]
      norm_num
    · have ht0 : (0 : ℚ) < (t : ℚ) := by
        exact_mod_cast (by omega : (0 : ℤ) < t)
      have hdiv : 0 ≤ 0.4 * (t : ℚ) / (threshold_min_time tt : ℚ) :=
        div_nonneg (by linarith) hmq.le
      simp only [check_minimum_time, h1, h2, if_true, if_false, if_neg,
        not_false_iff]
      constructor
      · refine le_min (by norm_num) (by linarith)
      · exact le_trans (min_le_left _ _) (by norm_num)
  · simp only [check_minimum_time, h1, if_false, if_neg, not_false_iff]
    norm_num

theorem check_response_format_bounds (r : PyVal) (tt : String) :
    1/2 ≤ check_response_format r tt ∧ check_response_format r tt ≤ 1 := by
  cases r <;> simp only [check_response_format] <;> split_ifs <;> norm_num

theorem check_repetition_cases (s : String) :
    check_repetition s = 0.5 ∨ check_repetition s = 0.6 ∨
    check_repetition s = 0.7 ∨ check_repetition s = 1 := by
  simp only [check_repetition]
  split_ifs <;> norm_num

theorem check_gibberish_cases (s : String) :
    check_gibberish s = 0.5 ∨ check_gibberish s = 0.6 ∨
    check_gibberish s = 1 := by
  simp only [check_gibberish]
  split_ifs <;> norm_num

theorem check_response_content_bounds (r : PyVal) (tt : String) :
    1/2 ≤ check_response_content r tt ∧ check_response_content r tt ≤ 1 := by
  obtain s | n | q | b | its | its | _ := r
  · simp only [check_response_content]
    rcases check_repetition_cases s with h | h | h | h <;>
      rcases check_gibberish_cases s with g | g | g <;>
        rw [h, g] <;> split_ifs <;> norm_num
  all_goals exact ⟨by norm_num [check_response_content],
    by norm_num [check_response_content]⟩

/-- C10: the threshold strategy's quality is the product of its three factor
scores; the minimum-time factor is at least 0.3 and the format and content
factors at least 0.5, each at most 1, so the returned quality always lies
in [0.075, 1] - strictly positive even for worst-case input. -/
theorem C10_threshold_quality_product_bounds (r : PyVal) (t : Int)
    (tt : String) :
    (threshold_validator_validate r t tt).1 =
      check_minimum_time t tt * check_response_format r tt *
        check_response_content r tt ∧
    3/40 ≤ (threshold_validator_validate r t tt).1 ∧
    (threshold_validator_validate r t tt).1 ≤ 1 ∧
    3/10 ≤ check_minimum_time t tt ∧ check_minimum_time t tt ≤ 1 ∧
    1/2 ≤ check_response_format r tt ∧ check_response_format r tt ≤ 1 ∧
    1/2 ≤ check_response_content r tt ∧ check_response_content r tt ≤ 1 := by
  obtain ⟨a1, a2⟩ := check_minimum_time_bounds t tt
  obtain ⟨b1, b2⟩ := check_response_format_bounds r tt
  obtain ⟨c1, c2⟩ := check_response_content_bounds r tt
  have hab1 : 3/20 ≤ check_minimum_time t tt * check_response_format r tt := by
    nlinarith
  have hab2 : check_minimum_time t tt * check_response_format r tt ≤ 1 := by
    nlinarith
  refine ⟨by simp [threshold_validator_validate], ?_, ?_,
    a1, a2, b1, b2, c1, c2⟩
  · simp only [threshold_validator_validate, one_mul]
    nlinarith
  · simp only [threshold_validator_validate, one_mul]
    nlinarith

/-- C9 counterexample: a session history of three validations, none equal to
the current response, with response times 100, 100, 130 ms.  The coefficient
of variation is sqrt(300)/110, between 0.1 and 0.2, so the claim prescribes
a pattern-suspicion of 0.7; the inner helper does compute 0.7, but the outer
check only propagates scores above 0.8, so the sub-score returned is 0. -/
theorem C9_counterexample :
    check_pattern_repetition
      [(.vStr "a", some 100), (.vStr "b", some 100), (.vStr "c", some 130)]
      (.vStr "d") = 0 ∧
    detect_time_pattern [100, 100, 130] = 0.7 ∧ (0 : ℚ) ≠ 0.7 := by
  have hd : detect_time_pattern [100, 100, 130] = 0.7 := by
    simp only [detect_time_pattern]
    norm_num
  refine ⟨?_, hd, by norm_num⟩
  have hne : ([(PyVal.vStr "a", some (100 : Int)), (.vStr "b", some 100),
      (.vStr "c", some 130)].map Prod.fst).any
      (fun prev => responses_equal (.vStr "d") prev) = false := by decide
  have hfm : List.filterMap Prod.snd
      [(PyVal.vStr "a", some (100 : Int)), (.vStr "b", some 100),
        (.vStr "c", some 130)] = [100, 100, 130] := by decide
  simp only [check_pattern_repetition, hne, hfm, hd]
  norm_num

/-- C9 amended: over the recent-session history, the pattern-suspicion is 0
with fewer than 2 entries regardless of any repetition; 1 when the current
response equals a prior one; and otherwise, with at least 3 time samples, it
is 1 when all times are identical (variance 0) and 0.9 when the coefficient
of variation is below 0.1, but 0 - not 0.7 - when the coefficient of
variation lies in [0.1, 0.2), because the inner 0.7 score is discarded by
the outer only-above-0.8 check (and 0 beyond 0.2 as the claim says). -/
theorem C9_check_pattern_repetition_amended :
    (∀ (recent : List (PyVal × Option Int)) (cur : PyVal),
      recent.length < 2 → check_pattern_repetition recent cur = 0) ∧
    (∀ (recent : List (PyVal × Option Int)) (cur : PyVal),
      2 ≤ recent.length →
      ((recent.map Prod.fst).any (fun prev => responses_equal cur prev))
        = true →
      check_pattern_repetition recent cur = 1) ∧
    (∀ (recent : List (PyVal × Option Int)) (cur : PyVal),
      2 ≤ recent.length →
      ((recent.map Prod.fst).any (fun prev => responses_equal cur prev))
        = false →
      3 ≤ (recent.filterMap Prod.snd).length →
      check_pattern_repetition recent cur =
        (if detect_time_pattern (recent.filterMap Prod.snd) > 0.8
         then detect_time_pattern (recent.filterMap Prod.snd) else 0)) ∧
    (∀ times : List Int, detect_time_pattern times = 0 ∨
      detect_time_pattern times = 0.7 ∨ detect_time_pattern times = 0.9 ∨
      detect_time_pattern times = 1) ∧
    (∀ (recent : List (PyVal × Option Int)) (cur : PyVal),
      2 ≤ recent.length →
      ((recent.map Prod.fst).any (fun prev => responses_equal cur prev))
        = false →
      3 ≤ (recent.filterMap Prod.snd).length →
      detect_time_pattern (recent.filterMap Prod.snd) = 0.7 →
      check_pattern_repetition recent cur = 0) := by
  have key : ∀ (recent : List (PyVal × Option Int)) (cur : PyVal),
      2 ≤ recent.length →
      ((recent.map Prod.fst).any (fun prev => responses_equal cur prev))
        = false →
      3 ≤ (recent.filterMap Prod.snd).length →
      check_pattern_repetition recent cur =
        (if detect_time_pattern (recent.filterMap Prod.snd) > 0.8
         then detect_time_pattern (recent.filterMap Prod.snd) else 0) := by
    intro recent cur h2 heq h3
    have hne : ¬ recent.length < 2 := not_lt.mpr h2
    have hval : (recent.filterMap Prod.snd).isEmpty = false := by
      cases hlist : recent.filterMap Prod.snd with
      | nil => rw [hlist] at h3; simp at h3
      | cons a l => rfl
    simp only [check_pattern_repetition, hne, heq, hval, h3,
      Bool.not_false, Bool.true_and, decide_eq_true_eq, if_false, if_true,
      Bool.false_eq_true, ge_iff_le, decide_True]
  refine ⟨fun recent cur h => ?_, fun recent cur h2 heq => ?_,
    key, fun times => ?_, fun recent cur h2 heq h3 h7 => ?_⟩
  · simp [check_pattern_repetition, h]
  · simp [check_pattern_repetition, not_lt.mpr h2, heq]
  · simp only [detect_time_pattern]
    split_ifs <;> norm_num
  · rw [key recent cur h2 heq h3, h7]
    norm_num

/-- Witness for C9 amended: an empty history scores 0, and the concrete
three-validation history whose times have a coefficient of variation in
[0.1, 0.2) also scores 0. -/
theorem C9_check_pattern_repetition_amended_witness :
    check_pattern_repetition [] (.vStr "x") = 0 ∧
    check_pattern_repetition
      [(.vStr "a", some 100), (.vStr "b", some 100), (.vStr "c", some 130)]
      (.vStr "d") = 0 :=
  ⟨C9_check_pattern_repetition_amended.1 [] (.vStr "x") (by decide),
   C9_check_pattern_repetition_amended.2.2.2.2
     [(.vStr "a", some 100), (.vStr "b", some 100), (.vStr "c", some 130)]
     (.vStr "d") (by decide) (by decide) (by decide)
     (by
       have hfm : List.filterMap Prod.snd
           [(PyVal.vStr "a", some (100 : Int)), (.vStr "b", some 100),
             (.vStr "c", some 130)] = [100, 100, 130] := by decide
       rw [hfm]
       simp only [detect_time_pattern]
       norm_num)⟩

theorem compare_responses_dict (uitems items : List (String × PyVal))
    (v : ℚ) :
    compare_responses (.vDict uitems) (.vDict items) v =
      0.4 * (if items.length > 0 then
          ((dict_present_scores uitems items v).length : ℚ) / items.length
        else 0) +
      0.6 * (if items.length > 0 then
          (dict_present_scores uitems items v).sum / items.length else 0) := by
  rw [compare_responses, dict_present_scores]

theorem dict_present_scores_nil (uitems : List (String × PyVal)) (v : ℚ) :
    dict_present_scores uitems [] v = [] := by
  simp [dict_present_scores]

theorem dict_present_scores_cons (uitems : List (String × PyVal))
    (k : String) (ev : PyVal) (rest : List (String × PyVal)) (v : ℚ) :
    dict_present_scores uitems ((k, ev) :: rest) v =
      (match lookupKey uitems k with
       | some uv => [compare_responses uv ev v]
       | none => []) ++ dict_present_scores uitems rest v := by
  simp only [dict_present_scores, List.attach_cons, List.filterMap_cons,
    List.filterMap_map]
  cases lookupKey uitems k <;> simp [Function.comp] <;>
    exact List.filterMap_congr (fun a _ => rfl)

/-- C8 counterexample: a boolean candidate compared against a boolean golden
answer is NOT scored by exact match alone - with allowed variation 1.0 the
mismatched pair (candidate false, expected true) scores 1.0, not 0.0,
because booleans are captured by the numeric isinstance branch and judged by
relative error against the tolerance. -/
theorem C8_counterexample :
    compare_responses (.vBool false) (.vBool true) 1 = 1 ∧ (1 : ℚ) ≠ 0 := by
  constructor
  · simp only [compare_responses, compare_simple_response, numVal]
    norm_num
  · norm_num

/-- C8 amended: booleans take the numeric comparison branch (bool being a
subclass of int), so equal booleans score 1.0, but a mismatch depends on
the allowed variation: candidate false against expected true has relative
error 1 and scores 1.0 when the variation is at least 1, else
max 0 (1 - 1/(3*variation)); candidate true against expected false scores
1.0 when |1| is within the variation and otherwise falls through the
isinstance chain to the unsupported-type fallback score 0. -/
theorem C8_bool_compare_amended (u e : Bool) (v : ℚ) (hv : 0 < v) :
    compare_responses (.vBool u) (.vBool e) v =
      (if u = e then 1
       else if e = true then
         (if 1 ≤ v then 1 else max 0 (1 - 1 / (v * 3)))
       else (if 1 ≤ v then 1 else 0)) := by
  cases u <;> cases e <;>
    simp only [compare_responses, compare_simple_response, numVal] <;>
    norm_num [hv.le]

/-- Witness for C8 amended at candidate false, expected true, variation 1:
the comparison scores 1. -/
theorem C8_bool_compare_amended_witness :
    compare_responses (.vBool false) (.vBool true) 1 = 1 :=
  (C8_bool_compare_amended false true 1 (by norm_num)).trans (by norm_num)

/-- C7 counterexample: expected dict with keys a, b (both short strings),
candidate supplying only the matching a.  The code scores
0.4 * (1/2) + 0.6 * (1/2) = 1/2, dividing the value term by the total
number of expected keys; the spec's formula - the mean over only the
present keys - gives 0.4 * (1/2) + 0.6 * 1 = 4/5. -/
theorem C7_counterexample :
    compare_responses (.vDict [("a", .vStr "x")])
      (.vDict [("a", .vStr "x"), ("b", .vStr "y")]) (1/10) = 1/2 ∧
    spec_dict_similarity (.vDict [("a", .vStr "x")])
      (.vDict [("a", .vStr "x"), ("b", .vStr "y")]) (1/10) = 4/5 ∧
    (1/2 : ℚ) ≠ 4/5 := by
  have hxx : compare_responses (.vStr "x") (.vStr "x") (1/10) = 1 := by
    simp only [compare_responses]
    decide
  have hka : lookupKey [("a", PyVal.vStr "x")] "a" = some (.vStr "x") := by
    simp [lookupKey]
  have hkb : lookupKey [("a", PyVal.vStr "x")] "b" = none := by
    simp [lookupKey]
  have hdps : dict_present_scores [("a", PyVal.vStr "x")]
      [("a", PyVal.vStr "x"), ("b", PyVal.vStr "y")] (1/10) = [1] := by
    rw [dict_present_scores_cons, dict_present_scores_cons,
      dict_present_scores_nil, hka, hkb]
    simp only [hxx, List.append_nil, List.nil_append]
  refine ⟨?_, ?_, by norm_num⟩
  · rw [compare_responses_dict, hdps]
    norm_num
  · rw [spec_dict_similarity]
    simp only [hdps]
    norm_num

/-- C7 amended: the structured-record score is
0.4 * key_coverage + 0.6 * (sum of the present keys' recursive
similarities) / |expected keys| - the value term divides by the TOTAL
number of expected keys, so missing keys are zero-filled into the value
term rather than excluded from it; equivalently, the value term is the
mean over present keys scaled down by the coverage. -/
theorem C7_dict_score_amended (uitems items : List (String × PyVal))
    (v : ℚ) (hitems : items ≠ []) :
    compare_responses (.vDict uitems) (.vDict items) v =
      0.4 * (((dict_present_scores uitems items v).length : ℚ) /
        items.length) +
      0.6 * ((dict_present_scores uitems items v).sum / items.length) ∧
    (dict_present_scores uitems items v ≠ [] →
      compare_responses (.vDict uitems) (.vDict items) v =
        0.4 * (((dict_present_scores uitems items v).length : ℚ) /
          items.length) +
        0.6 * ((dict_present_scores uitems items v).sum /
            (dict_present_scores uitems items v).length) *
          (((dict_present_scores uitems items v).length : ℚ) /
            items.length)) := by
  have hlen : items.length > 0 := List.length_pos.mpr hitems
  have hbase : compare_responses (.vDict uitems) (.vDict items) v =
      0.4 * (((dict_present_scores uitems items v).length : ℚ) /
        items.length) +
      0.6 * ((dict_present_scores uitems items v).sum / items.length) := by
    rw [compare_responses_dict, if_pos hlen, if_pos hlen]
  refine ⟨hbase, fun hp => ?_⟩
  rw [hbase]
  have hplen : ((dict_present_scores uitems items v).length : ℚ) ≠ 0 :=
    Nat.cast_ne_zero.mpr (List.length_pos.mpr hp).ne'
  have htot : ((items.length : ℚ)) ≠ 0 := Nat.cast_ne_zero.mpr hlen.ne'
  congr 1
  field_simp

/-- Witness for C7 amended at the counterexample input: the code's score on
the two-key expected dict with one present key is 1/2. -/
theorem C7_dict_score_amended_witness :
    compare_responses (.vDict [("a", .vStr "x")])
      (.vDict [("a", .vStr "x"), ("b", .vStr "y")]) (1/10) =
      0.4 * (((dict_present_scores [("a", .vStr "x")]
          [("a", .vStr "x"), ("b", .vStr "y")] (1/10)).length : ℚ) / 2) +
      0.6 * ((dict_present_scores [("a", .vStr "x")]
          [("a", .vStr "x"), ("b", .vStr "y")] (1/10)).sum / 2) :=
  (C7_dict_score_amended [("a", .vStr "x")]
    [("a", .vStr "x"), ("b", .vStr "y")] (1/10) (by simp)).1

theorem filterMap_getStr_map_vStr (ss : List String) :
    (ss.map PyVal.vStr).filterMap PyVal.getStr = ss := by
  induction ss with
  | nil => rfl
  | cons a l ih => simp [List.filterMap_cons, PyVal.getStr, ih]

theorem calculate_text_consensus_majority (responses : List PyVal)
    (h : responses.filterMap PyVal.getStr ≠ []) :
    ∃ m ∈ (responses.filterMap PyVal.getStr).map normalize_response,
      calculate_text_consensus responses =
        (.vStr m,
          (((responses.filterMap PyVal.getStr).map normalize_response).count m
            : ℚ) /
          ((responses.filterMap PyVal.getStr).map normalize_response).length) ∧
      ∀ x ∈ (responses.filterMap PyVal.getStr).map normalize_response,
        ((responses.filterMap PyVal.getStr).map normalize_response).count x ≤
        ((responses.filterMap PyVal.getStr).map normalize_response).count m := by
  have hNne : (responses.filterMap PyVal.getStr).map normalize_response ≠ [] := by
    simpa using h
  cases harg : List.argmax
      (fun x => ((responses.filterMap PyVal.getStr).map
        normalize_response).count x)
      ((responses.filterMap PyVal.getStr).map normalize_response) with
  | none => exact absurd (List.argmax_eq_none.mp harg) hNne
  | some m =>
    refine ⟨m, List.argmax_mem harg, ?_, fun x hx => ?_⟩
    · simp only [calculate_text_consensus, harg]
    · exact le_of_not_lt (List.not_lt_of_mem_argmax hx harg)

theorem calculate_consensus_text (ss : List String) (hss : ss ≠ []) :
    calculate_consensus (ss.map PyVal.vStr) =
      .ok (calculate_text_consensus (ss.map PyVal.vStr)) := by
  obtain ⟨s0, ss2, rfl⟩ := List.exists_cons_of_ne_nil hss
  have hfilter : ((s0 :: ss2).map PyVal.vStr).filter (fun v => ! v.isNone) =
      (s0 :: ss2).map PyVal.vStr := by
    refine List.filter_eq_self.mpr ?_
    intro v hv
    simp only [List.mem_map] at hv
    obtain ⟨s, _, rfl⟩ := hv
    rfl
  simp only [calculate_consensus, List.map_cons, List.isEmpty_cons]
  rw [show ((PyVal.vStr s0 :: ss2.map PyVal.vStr).filter
      (fun v => ! v.isNone)) = PyVal.vStr s0 :: ss2.map PyVal.vStr by
    simpa [List.map_cons] using hfilter]
  rfl

theorem calculate_consensus_singleton_text (s : String) :
    calculate_consensus [.vStr s] = .ok (.vStr (normalize_response s), 1) := by
  have h := calculate_consensus_text [s] (by simp)
  simp only [List.map_cons, List.map_nil] at h
  rw [h]
  simp only [calculate_text_consensus, List.filterMap_cons, List.filterMap_nil,
    PyVal.getStr, List.map_cons, List.map_nil, List.argmax_singleton]
  norm_num

/-- C2 counterexample: three members with text responses a, a, b.  The code
computes the majority-frequency agreement 2/3 (the most common response over
the member count); the pairwise exact-match statistic the claim prescribes
is 1/3 (one matching pair of three). -/
theorem C2_counterexample :
    calculate_consensus [.vStr "a", .vStr "a", .vStr "b"] =
      .ok (.vStr "a", 2/3) ∧
    pairwise_agreement [.vStr "a", .vStr "a", .vStr "b"] = 1/3 ∧
    ((2 : ℚ)/3 ≠ 1/3) := by
  refine ⟨?_, ?_, by norm_num⟩
  · have h := calculate_consensus_text ["a", "a", "b"] (by simp)
    simp only [List.map_cons, List.map_nil] at h
    rw [h]
    have hfm : List.filterMap PyVal.getStr
        [PyVal.vStr "a", .vStr "a", .vStr "b"] = ["a", "a", "b"] := by decide
    have hnorm : (["a", "a", "b"].map normalize_response) = ["a", "a", "b"] := by
      decide
    have harg : List.argmax (fun x => List.count x ["a", "a", "b"])
        ["a", "a", "b"] = some "a" := by decide
    simp only [calculate_text_consensus, hfm, hnorm, harg]
    rw [show List.count "a" ["a", "a", "b"] = 2 from by decide]
    norm_num
  · simp only [pairwise_agreement, count_matching_pairs]
    have h1 : pyEq (.vStr "a") (.vStr "a") = true := by simp [pyEq]
    have h2 : pyEq (.vStr "a") (.vStr "b") = false := by simp [pyEq]
    simp [h1, h2]
    norm_num

/-- C2 amended: agreement is recomputed only once the member count reaches
required_validations (below that the group is returned untouched), and what
is recomputed is the majority-frequency consensus of
app/services/consensus.py, not the pairwise matchingPairs/totalPairs
statistic: for text members the agreement is the count of the most frequent
normalized response divided by the number of responses. -/
theorem C2_agreement_amended :
    (∀ g : GroupState, g.members.length < g.required_validations →
      check_and_update_consensus g = .ok g) ∧
    (∀ ss : List String, ss ≠ [] →
      ∃ m ∈ ss.map normalize_response,
        calculate_consensus (ss.map PyVal.vStr) =
          .ok (.vStr m, ((ss.map normalize_response).count m : ℚ) /
            (ss.map normalize_response).length) ∧
        ∀ x ∈ ss.map normalize_response,
          (ss.map normalize_response).count x ≤
            (ss.map normalize_response).count m) := by
  constructor
  · intro g h
    simp only [check_and_update_consensus, if_neg (not_le.mpr h)]
  · intro ss hss
    have hfm : (ss.map PyVal.vStr).filterMap PyVal.getStr = ss :=
      filterMap_getStr_map_vStr ss
    obtain ⟨m, hmem, heq, hmax⟩ :=
      calculate_text_consensus_majority (ss.map PyVal.vStr)
        (by rw [hfm]; exact hss)
    rw [hfm] at hmem heq hmax
    refine ⟨m, hmem, ?_, hmax⟩
    rw [calculate_consensus_text ss hss, heq]

/-- Witness for C2 amended: a group with no members and three required
validations is returned untouched, and the single-response list yields its
own normalized response with maximal count. -/
theorem C2_agreement_amended_witness :
    check_and_update_consensus
      (GroupState.mk .pending 3 (3/4) none none []) =
      .ok (GroupState.mk .pending 3 (3/4) none none []) ∧
    (∃ m ∈ ["a"].map normalize_response,
      calculate_consensus (["a"].map PyVal.vStr) =
        .ok (.vStr m, ((["a"].map normalize_response).count m : ℚ) /
          (["a"].map normalize_response).length) ∧
      ∀ x ∈ ["a"].map normalize_response,
        (["a"].map normalize_response).count x ≤
          (["a"].map normalize_response).count m) :=
  ⟨C2_agreement_amended.1 (GroupState.mk .pending 3 (3/4) none none [])
      (by norm_num),
   C2_agreement_amended.2 ["a"] (by simp)⟩

/-- C4 counterexample: a COMPLETED group whose membership grew to four
mutually distinct responses (required 2, threshold 0.9).  Re-running the
recomputation demotes the terminal status to FAILED, and add_validation
happily links a new member to the terminal group. -/
theorem C4_counterexample :
    (GroupState.mk .completed 2 (9/10) (some (.vStr "a")) (some 1)
      [.vStr "a", .vStr "b", .vStr "c", .vStr "d"]).status = .completed ∧
    check_and_update_consensus
      (GroupState.mk .completed 2 (9/10) (some (.vStr "a")) (some 1)
        [.vStr "a", .vStr "b", .vStr "c", .vStr "d"]) =
      .ok (GroupState.mk .failed 2 (9/10) (some (.vStr "a")) (some 1)
        [.vStr "a", .vStr "b", .vStr "c", .vStr "d"]) ∧
    ConsensusStatus.failed ≠ .completed ∧
    (add_validation
      (GroupState.mk .completed 2 (9/10) (some (.vStr "a")) (some 1)
        [.vStr "a", .vStr "b", .vStr "c", .vStr "d"]) (.vStr "e")).members =
      [.vStr "a", .vStr "b", .vStr "c", .vStr "d", .vStr "e"] := by
  refine ⟨rfl, ?_, by decide, rfl⟩
  have hcc : calculate_consensus [PyVal.vStr "a", .vStr "b", .vStr "c",
      .vStr "d"] = .ok (.vStr "a", 1/4) := by
    have h := calculate_consensus_text ["a", "b", "c", "d"] (by simp)
    simp only [List.map_cons, List.map_nil] at h
    rw [h]
    have hfm : List.filterMap PyVal.getStr
        [PyVal.vStr "a", .vStr "b", .vStr "c", .vStr "d"] =
        ["a", "b", "c", "d"] := by decide
    have hnorm : (["a", "b", "c", "d"].map normalize_response) =
        ["a", "b", "c", "d"] := by decide
    have harg : List.argmax (fun x => List.count x ["a", "b", "c", "d"])
        ["a", "b", "c", "d"] = some "a" := by decide
    simp only [calculate_text_consensus, hfm, hnorm, harg]
    rw [show List.count "a" ["a", "b", "c", "d"] = 1 from by decide]
    norm_num
  simp only [check_and_update_consensus, hcc]
  norm_num

/-- C4 amended: neither add_validation nor check_and_update_consensus
guards terminal states.  add_validation always appends the member (only
promoting PENDING to IN_PROGRESS, leaving any other status - terminal ones
included - unchanged), and the recomputation is a no-op only while the
member count is below required_validations; on a completed group whose
membership changed it can demote the status to failed, as the
counterexample shows. -/
theorem C4_terminal_not_guarded_amended (g : GroupState) (r : PyVal) :
    (add_validation g r).members = g.members ++ [r] ∧
    (add_validation g r).status =
      (if g.status = .pending then .in_progress else g.status) ∧
    (g.members.length < g.required_validations →
      check_and_update_consensus g = .ok g) := by
  refine ⟨rfl, rfl, fun h => ?_⟩
  simp only [check_and_update_consensus, if_neg (not_le.mpr h)]

/-- Witness for C4 amended: adding a response to a concrete FAILED group
appends it and leaves the status FAILED, and recomputation on a one-member
group requiring three validations is a no-op. -/
theorem C4_terminal_not_guarded_amended_witness :
    (add_validation (GroupState.mk .failed 2 (3/4) none none []) (.vStr "z")).members
      = [] ++ [.vStr "z"] ∧
    (add_validation (GroupState.mk .failed 2 (3/4) none none []) (.vStr "z")).status
      = (if (GroupState.mk .failed 2 (3/4) none none []).status = .pending
         then .in_progress else (GroupState.mk .failed 2 (3/4) none none []).status) ∧
    check_and_update_consensus
      (GroupState.mk .pending 3 (3/4) none none [.vStr "y"]) =
      .ok (GroupState.mk .pending 3 (3/4) none none [.vStr "y"]) :=
  ⟨(C4_terminal_not_guarded_amended
      (GroupState.mk .failed 2 (3/4) none none []) (.vStr "z")).1,
   (C4_terminal_not_guarded_amended
      (GroupState.mk .failed 2 (3/4) none none []) (.vStr "z")).2.1,
   (C4_terminal_not_guarded_amended
      (GroupState.mk .pending 3 (3/4) none none [.vStr "y"]) (.vStr "z")).2.2
     (by norm_num)⟩

/-- C6 counterexample: a single-member group with required_validations 1.
The consensus calculation returns agreement 1.0 for the singleton - not the
0.0 the claim prescribes - and the recomputation takes the
consensus-reached branch (which in the current code dies with NameError
before committing) instead of leaving the group untouched. -/
theorem C6_counterexample :
    calculate_consensus [.vStr "yes"] = .ok (.vStr "yes", 1) ∧
    ((1 : ℚ) ≠ 0) ∧
    check_and_update_consensus
      (GroupState.mk .in_progress 1 (3/4) none none [.vStr "yes"]) =
      .error nameErrorMsg := by
  have h1 : calculate_consensus [PyVal.vStr "yes"] = .ok (.vStr "yes", 1) := by
    have h := calculate_consensus_singleton_text "yes"
    rwa [show normalize_response "yes" = "yes" by decide] at h
  refine ⟨h1, by norm_num, ?_⟩
  simp only [check_and_update_consensus, h1]
  norm_num

/-- C6 amended: a group with fewer members than required_validations is
left untouched by the recomputation (so a fresh group with required 2 or
more does stay non-terminal); but the agreement computed for a single text
response is 1.0, not 0.0, and a single-member group with
required_validations at most 1 takes the consensus-reached branch (dying
with the NameError of the missing import before any commit) instead of
remaining pending/in_progress. -/
theorem C6_single_member_amended :
    (∀ g : GroupState, g.members.length < g.required_validations →
      check_and_update_consensus g = .ok g) ∧
    (∀ s : String, calculate_consensus [.vStr s] =
      .ok (.vStr (normalize_response s), 1)) ∧
    (∀ (g : GroupState) (s : String), g.members = [.vStr s] →
      g.required_validations ≤ 1 → g.agreement_threshold ≤ 1 →
      check_and_update_consensus g = .error nameErrorMsg) := by
  refine ⟨fun g h => ?_, fun s => calculate_consensus_singleton_text s,
    fun g s hm hr ht => ?_⟩
  · simp only [check_and_update_consensus, if_neg (not_le.mpr h)]
  · have hlen : g.members.length = 1 := by rw [hm]; rfl
    have hcond : g.members.length ≥ g.required_validations := by omega
    simp only [check_and_update_consensus, hm,
      calculate_consensus_singleton_text s, if_pos ht]
    rw [if_pos (show [PyVal.vStr s].length ≥ g.required_validations by
      simp
      omega)]

/-- Witness for C6 amended: a one-member group with required 3 is left
untouched; the singleton consensus of the response yes is 1.0; and the
one-member group with required 1 and threshold 3/4 dies with the NameError. -/
theorem C6_single_member_amended_witness :
    check_and_update_consensus
      (GroupState.mk .in_progress 3 (3/4) none none [.vStr "yes"]) =
      .ok (GroupState.mk .in_progress 3 (3/4) none none [.vStr "yes"]) ∧
    calculate_consensus [.vStr "yes"] =
      .ok (.vStr (normalize_response "yes"), 1) ∧
    check_and_update_consensus
      (GroupState.mk .in_progress 1 (3/4) none none [.vStr "yes"]) =
      .error nameErrorMsg :=
  ⟨C6_single_member_amended.1
      (GroupState.mk .in_progress 3 (3/4) none none [.vStr "yes"])
      (by norm_num),
   C6_single_member_amended.2.1 "yes",
   C6_single_member_amended.2.2
      (GroupState.mk .in_progress 1 (3/4) none none [.vStr "yes"]) "yes"
      rfl (by norm_num) (by norm_num)⟩

end HotlabelQA
